import Mathlib

/-!
Verification development for the serpapi-youtube-mcp-server repository.

The TypeScript source (`src/index.ts` plus the helper module exporting
`getVideoId` and `fetchBasicVideoInfo`) is shallowly embedded below:

* Every network call (`fetch`) is modelled through an explicit oracle
  (`Net` / an `Option Resp` argument) so that the functions stay pure; a
  `Fetched.netFail` value models the promise rejecting, `Fetched.httpError`
  models a non-2xx response together with the diagnostic body text that the
  source interpolates into its error message.
* JavaScript truthiness on strings and numbers (`x || d` with `""`, `0`,
  `undefined` and `null` falsy) is embedded by `strTruthy`, `jsOrStr`,
  `jsStrOpt` and `jsOrNat`.  An upstream JSON field that may be absent is an
  `Option`; a field that the source writes as `x || null` is mapped to
  `Option` with `none` standing for the explicit JSON `null`.
* The unanchored regular expressions of `getVideoId` are embedded as
  leftmost-match scans over character lists (`captureAfter`): each pattern is
  a fixed literal core (for example `youtube.com/watch?v=`) followed by a
  capture of exactly eleven characters from the class `[a-zA-Z0-9_-]`.  The
  optional `(?:https?:\/\/)?(?:www\.)?` groups only shift the position where
  a match starts, never the captured group, because the pattern cores have no
  self-overlap, so the leftmost-match semantics coincides with "first
  occurrence of the core that is followed by eleven id characters".
* An upstream `comments`/`replies` field that is absent **or not an array**
  is modelled as `none` (the source treats the two identically through
  `!data.comments || !Array.isArray(data.comments)`).
-/

namespace SerpYt

/-- JS truthiness of an optional string: `undefined`/`null` and the empty
string are falsy, mirroring guards such as `if (!SERPAPI_KEY)` and
`if (!tokenToUse)` in the source. -/
def strTruthy : Option String → Bool
  | none => false
  | some s => s != ""

/-- JS `x || d` for an optional string (absent or empty falls back to `d`),
mirroring expressions such as `comment.channel?.name || "Anonymous"`. -/
def jsOrStr : Option String → String → String
  | none, d => d
  | some s, d => if s = "" then d else s

/-- JS `x || undefined` (and `x || null`) for an optional string: an absent
or empty string collapses to the absent value, as in
`data.comments_next_page_token || undefined` and
`comment.replies_next_page_token || null`. -/
def jsStrOpt : Option String → Option String
  | none => none
  | some s => if s = "" then none else some s

/-- JS `x || d` for an optional number (`0` is falsy), mirroring
`comment.extracted_vote_count || 0`. -/
def jsOrNat : Option Nat → Nat → Nat
  | none, d => d
  | some n, d => if n = 0 then d else n

/-- The character class `[a-zA-Z0-9_-]` used by every video-id pattern. -/
def isIdChar (c : Char) : Bool := c.isAlphanum || c = '-' || c = '_'

/-- `/^[a-zA-Z0-9_-]{11}$/.test(urlOrId)` on the character list of the input. -/
def isVideoIdChars (l : List Char) : Bool :=
  (l.length == 11) && l.all isIdChar

/-- Match a literal pattern at the head of a character list, returning the
remainder after the pattern. -/
def stripLit : List Char → List Char → Option (List Char)
  | [], l => some l
  | _ :: _, [] => none
  | p :: ps, c :: cs => if p = c then stripLit ps cs else none

/-- Leftmost-match scan for `core` followed by exactly eleven id characters,
returning the captured eleven characters.  This is the match semantics of the
unanchored URL-shape regexes in `getVideoId` (see the module docstring for
why the optional scheme and `www.` groups do not affect the capture). -/
def captureAfter (core : List Char) : List Char → Option (List Char)
  | [] => none
  | c :: cs =>
    match stripLit core (c :: cs) with
    | some rest =>
      if (rest.take 11).length = 11 ∧ (rest.take 11).all isIdChar = true then
        some (rest.take 11)
      else captureAfter core cs
    | none => captureAfter core cs

/-- Core literal of `/(?:https?:\/\/)?(?:www\.)?youtube\.com\/watch\?v=([a-zA-Z0-9_-]{11})/`. -/
def patWatch : List Char := "youtube.com/watch?v=".toList

/-- Core literal of the `/embed/` pattern. -/
def patEmbed : List Char := "youtube.com/embed/".toList

/-- Core literal of the `/v/` pattern. -/
def patV : List Char := "youtube.com/v/".toList

/-- Core literal of the `youtu.be/` pattern. -/
def patBe : List Char := "youtu.be/".toList

/-- Core literal of the `/shorts/` pattern. -/
def patShorts : List Char := "youtube.com/shorts/".toList

/-- The five URL-shape patterns, in the fixed order the source tries them. -/
def urlPatterns : List (List Char) := [patWatch, patEmbed, patV, patBe, patShorts]

/-- The `for (const pattern of patterns)` loop of `getVideoId`: return the
first successful capture. -/
def firstCapture : List (List Char) → List Char → Option (List Char)
  | [], _ => none
  | p :: ps, l =>
    match captureAfter p l with
    | some v => some v
    | none => firstCapture ps l

/-- `getVideoId` from the helper module, on character lists: return an
11-character id input directly, otherwise try the five URL-shape patterns in
order and return the first captured group; `none` models the `null` return. -/
def getVideoIdL (l : List Char) : Option (List Char) :=
  if isVideoIdChars l then some l else firstCapture urlPatterns l

/-- `getVideoId(urlOrId: string): string | null`. -/
def getVideoId (s : String) : Option String :=
  (getVideoIdL s.toList).map String.mk

/-- `String.prototype.includes`: does `needle` occur contiguously? -/
def containsSeq (needle : List Char) : List Char → Bool
  | [] => needle.isEmpty
  | c :: cs => (stripLit needle (c :: cs)).isSome || containsSeq needle cs

/-- `token.title.toLowerCase().includes("newest")` (ASCII case folding; the
needle `newest` is ASCII so this matches the JS behaviour on it). -/
def titleHasNewest (t : String) : Bool :=
  containsSeq ("newest".toList) (t.toList.map Char.toLower)

/-- JS `\s` on the ASCII range (space, tab, newline, carriage return,
vertical tab, form feed). -/
def isJsSpace (c : Char) : Bool :=
  c = ' ' || c = '\t' || c = '\n' || c = '\r' || c = '\x0b' || c = '\x0c'

/-- Case-insensitive (ASCII) literal match for the `/i` meta-tag regexes of
`fetchBasicVideoInfo`. -/
def stripLitCI : List Char → List Char → Option (List Char)
  | [], l => some l
  | _ :: _, [] => none
  | p :: ps, c :: cs => if p.toLower = c.toLower then stripLitCI ps cs else none

/-- Match `<meta\s+NAMEATTR\s+content="([^"]+)"` at the head of `l`
(case-insensitively), returning the captured attribute value.  The greedy
`\s+` runs are maximal whitespace runs; since the following literal starts
with a non-space character, greedy matching needs no backtracking. -/
def matchMetaAt (nameAttr : List Char) (l : List Char) : Option (List Char) :=
  match stripLitCI ("<meta".toList) l with
  | none => none
  | some r1 =>
    let ws1 := r1.takeWhile isJsSpace
    if ws1.isEmpty then none else
    match stripLitCI nameAttr (r1.drop ws1.length) with
    | none => none
    | some r2 =>
      let ws2 := r2.takeWhile isJsSpace
      if ws2.isEmpty then none else
      match stripLitCI ("content=\"".toList) (r2.drop ws2.length) with
      | none => none
      | some r3 =>
        let run := r3.takeWhile (fun c => c != '"')
        if run.isEmpty then none
        else if run.length < r3.length then some run else none

/-- Leftmost-match scan for a `<meta ... content="...">` pattern. -/
def searchMeta (nameAttr : List Char) : List Char → Option (List Char)
  | [] => none
  | c :: cs =>
    match matchMetaAt nameAttr (c :: cs) with
    | some v => some v
    | none => searchMeta nameAttr cs

/-- Leftmost-match scan for patterns of the form `LIT([^"]+)"`, used for
`/"publishDate":"([^"]+)"/` and `/"viewCount":"([^"]+)"/`. -/
def captureQuoted (lit : List Char) : List Char → Option (List Char)
  | [] => none
  | c :: cs =>
    match stripLit lit (c :: cs) with
    | some rest =>
      let run := rest.takeWhile (fun c => c != '"')
      if !run.isEmpty && run.length < rest.length then some run
      else captureQuoted lit cs
    | none => captureQuoted lit cs

/-- An HTTP response as `fetchBasicVideoInfo` sees it: status plus body text. -/
structure Resp where
  status : Nat
  body : String
deriving DecidableEq

/-- `Response.ok`: status in the 2xx range. -/
def respOk (status : Nat) : Bool := (200 ≤ status) && (status ≤ 299)

/-- Result record of `fetchBasicVideoInfo`: every field best-effort. -/
structure BasicVideoInfo where
  title : Option String
  channelName : Option String
  publishedAt : Option String
  viewCount : Option String
deriving DecidableEq

/-- The `try` block of `fetchBasicVideoInfo` (helper module): a transport
failure (`resp = none`) or a non-ok HTTP status raises an error; otherwise
the four fields are extracted independently and a missing pattern simply
leaves its field absent. -/
def fetchBasicVideoInfoTry (resp : Option Resp) : Except String BasicVideoInfo :=
  match resp with
  | none => Except.error ("fetch failed")
  | some r =>
    if !respOk r.status then
      Except.error ("HTTP error! status: " ++ toString r.status)
    else
      let html := r.body.toList
      Except.ok
        { title := (searchMeta ("name=\"title\"".toList) html).map String.mk
        , channelName := (searchMeta ("name=\"author\"".toList) html).map String.mk
        , publishedAt := (captureQuoted ("\"publishDate\":\"".toList) html).map String.mk
        , viewCount := (captureQuoted ("\"viewCount\":\"".toList) html).map String.mk }

/-- `fetchBasicVideoInfo` as its caller observes it: the `catch` block turns
any raised error into a normal result with every field absent. -/
def fetchBasicVideoInfo (resp : Option Resp) : BasicVideoInfo :=
  match fetchBasicVideoInfoTry resp with
  | Except.ok v => v
  | Except.error _ =>
    { title := none, channelName := none, publishedAt := none, viewCount := none }

/-- One entry of the upstream `comments_sorting_token` array. -/
structure RawSortingToken where
  title : String
  token : String
deriving DecidableEq

/-- The fields of the upstream video-info JSON that `getVideoInfoData` reads
(`channelName` models `data.channel?.name`). -/
structure RawVideoInfo where
  title : Option String
  views : Option String
  published_date : Option String
  channelName : Option String
  extracted_comment_count : Option Nat
  comments_next_page_token : Option String
  comments_sorting_token : Option (List RawSortingToken)
deriving DecidableEq

/-- The `VideoInfoResponse` interface of the source. -/
structure VideoInfoResponse where
  videoId : String
  title : Option String
  viewCount : Option String
  publishDate : Option String
  channelName : Option String
  commentCount : Option Nat
  commentsNextPageToken : Option String
  commentsSortingTokens : Option (List RawSortingToken)
deriving DecidableEq

/-- The fields of one upstream comment entry that `getCommentsData` reads
(`channelName` models `comment.channel?.name`). -/
structure RawComment where
  comment_id : Option String
  channelName : Option String
  content : Option String
  published_date : Option String
  extracted_vote_count : Option Nat
  replies_count : Option Nat
  replies_next_page_token : Option String
deriving DecidableEq

/-- The fields of the upstream comments-page JSON that `getCommentsData`
reads; `comments = none` models the field being absent or not an array. -/
structure RawCommentsPage where
  video_id : Option String
  title : Option String
  comments_next_page_token : Option String
  comments : Option (List RawComment)
deriving DecidableEq

/-- The output `Comment` shape of the comments-page mapping; `repliesToken =
none` models the explicit JSON `null` the source writes via `|| null`. -/
structure Comment where
  commentId : String
  author : String
  text : String
  time : String
  likes : Nat
  replies : Nat
  repliesToken : Option String
deriving DecidableEq

/-- The success payload of `getCommentsData`. -/
structure CommentsPage where
  videoId : String
  videoTitle : Option String
  comments : List Comment
  commentCount : Nat
  nextPageToken : Option String
deriving DecidableEq

/-- The fields of one upstream reply entry that `getRepliesData` reads. -/
structure RawReply where
  comment_id : Option String
  channelName : Option String
  content : Option String
  published_date : Option String
  extracted_vote_count : Option Nat
deriving DecidableEq

/-- The fields of the upstream replies-page JSON that `getRepliesData` reads;
`replies = none` models the field being absent or not an array. -/
structure RawRepliesPage where
  comment_parent_id : Option String
  replies_next_page_token : Option String
  replies : Option (List RawReply)
deriving DecidableEq

/-- One mapped reply (no `replies`/`repliesToken` fields). -/
structure Reply where
  commentId : String
  author : String
  text : String
  time : String
  likes : Nat
deriving DecidableEq

/-- The success payload of `getRepliesData`. -/
structure RepliesPage where
  parentCommentId : String
  replies : List Reply
  replyCount : Nat
  nextPageToken : Option String
deriving DecidableEq

/-- Outcome of one upstream `fetch` with its JSON already parsed into the
fields the caller reads: `ok` is a 2xx response, `httpError` a non-2xx
response (status plus the diagnostic body text), `netFail` a rejected fetch. -/
inductive Fetched (α : Type) where
  | ok (data : α)
  | httpError (status : Nat) (errorText : String)
  | netFail (msg : String)

/-- The network oracle: responses of the three upstream query shapes, keyed
by the parameter the source sends (`v=` video id, `next_page_token=`). -/
structure Net where
  videoInfo : String → Fetched RawVideoInfo
  page : String → Fetched RawCommentsPage
  replyPage : String → Fetched RawRepliesPage

/-- The `sort` parameter of the `getReplies` tool. -/
inductive SortOrder where
  | relevance
  | time
deriving DecidableEq

/-- The field remapping at the end of `getVideoInfoData` (plain copies, no
defaulting). -/
def mapVideoInfo (videoId : String) (d : RawVideoInfo) : VideoInfoResponse :=
  { videoId := videoId
  , title := d.title
  , viewCount := d.views
  , publishDate := d.published_date
  , channelName := d.channelName
  , commentCount := d.extracted_comment_count
  , commentsNextPageToken := d.comments_next_page_token
  , commentsSortingTokens := d.comments_sorting_token }

/-- `getVideoInfoData`: resolve the id, check the credential, issue the
video-info query, map the response.  Thrown errors become `Except.error`. -/
def getVideoInfoData (key : Option String) (net : Net) (url : String) :
    Except String VideoInfoResponse :=
  match getVideoId url with
  | none => Except.error ("Invalid YouTube URL or video ID")
  | some videoId =>
    if !strTruthy key then
      Except.error ("SERPAPI_KEY is not set in environment variables")
    else
      match net.videoInfo videoId with
      | Fetched.netFail msg => Except.error msg
      | Fetched.httpError st body =>
        Except.error ("SerpAPI error: " ++ toString st ++ " - " ++ body)
      | Fetched.ok d => Except.ok (mapVideoInfo videoId d)

/-- Lines 219-230 of `src/index.ts`: start from `commentsNextPageToken` and,
for time ordering with a sorting-token list present, replace it with the
token of the first entry whose lowercased title contains `newest`. -/
def selectCommentsToken (sort : SortOrder) (info : VideoInfoResponse) : Option String :=
  let tokenToUse := info.commentsNextPageToken
  match sort, info.commentsSortingTokens with
  | SortOrder.time, some toks =>
    match toks.find? (fun t => titleHasNewest t.title) with
    | some e => some e.token
    | none => tokenToUse
  | _, _ => tokenToUse

/-- The per-entry comment mapping of `getCommentsData` (lines 301-309). -/
def mapComment (c : RawComment) : Comment :=
  { commentId := jsOrStr c.comment_id ("")
  , author := jsOrStr c.channelName ("Anonymous")
  , text := jsOrStr c.content ("")
  , time := jsOrStr c.published_date ("")
  , likes := jsOrNat c.extracted_vote_count 0
  , replies := jsOrNat c.replies_count 0
  , repliesToken := jsStrOpt c.replies_next_page_token }

/-- The comments-page response mapping of `getCommentsData` (lines 283-317):
absent/non-array `comments` yields an empty page, otherwise the first `limit`
entries are mapped in upstream order. -/
def mapCommentsData (d : RawCommentsPage) (extractedVideoId : String) (limit : Nat) :
    CommentsPage :=
  let videoId := jsOrStr d.video_id extractedVideoId
  let videoTitle := d.title
  let nextPageToken := jsStrOpt d.comments_next_page_token
  match d.comments with
  | none =>
    { videoId := videoId, videoTitle := videoTitle, comments := [],
      commentCount := 0, nextPageToken := nextPageToken }
  | some cs =>
    let comments := (cs.take limit).map mapComment
    { videoId := videoId, videoTitle := videoTitle, comments := comments,
      commentCount := comments.length, nextPageToken := nextPageToken }

/-- The page-fetch-and-map tail of `getCommentsData` (lines 247-317). -/
def fetchPage (net : Net) (token : String) (extractedVideoId : String) (limit : Nat) :
    Except String CommentsPage :=
  match net.page token with
  | Fetched.netFail msg => Except.error msg
  | Fetched.httpError st body =>
    Except.error ("SerpAPI error: " ++ toString st ++ " - " ++ body)
  | Fetched.ok d => Except.ok (mapCommentsData d extractedVideoId limit)

/-- `getCommentsData`: credential check, then either a direct page fetch by
`pageToken` or the resolve / video-info / token-selection pipeline followed
by the page fetch. -/
def getCommentsData (key : Option String) (net : Net) (url : String) (limit : Nat)
    (sort : SortOrder) (pageToken : Option String) : Except String CommentsPage :=
  if !strTruthy key then
    Except.error ("SERPAPI_KEY is not set in environment variables")
  else if strTruthy pageToken then
    fetchPage net (jsOrStr pageToken ("")) ("") limit
  else
    match getVideoId url with
    | none => Except.error ("Invalid YouTube URL or video ID")
    | some _ =>
      match getVideoInfoData key net url with
      | Except.error e => Except.error e
      | Except.ok info =>
        match selectCommentsToken sort info with
        | some t =>
          if t = "" then Except.error ("Could not find valid comments token")
          else fetchPage net t info.videoId limit
        | none => Except.error ("Could not find valid comments token")

/-- The per-entry reply mapping of `getRepliesData` (lines 382-388). -/
def mapReply (r : RawReply) : Reply :=
  { commentId := jsOrStr r.comment_id ("")
  , author := jsOrStr r.channelName ("Anonymous")
  , text := jsOrStr r.content ("")
  , time := jsOrStr r.published_date ("")
  , likes := jsOrNat r.extracted_vote_count 0 }

/-- The replies-page response mapping of `getRepliesData` (lines 366-395). -/
def mapRepliesData (d : RawRepliesPage) : RepliesPage :=
  let parentCommentId := jsOrStr d.comment_parent_id ("")
  let nextPageToken := jsStrOpt d.replies_next_page_token
  match d.replies with
  | none =>
    { parentCommentId := parentCommentId, replies := [], replyCount := 0,
      nextPageToken := nextPageToken }
  | some rs =>
    let replies := rs.map mapReply
    { parentCommentId := parentCommentId, replies := replies,
      replyCount := replies.length, nextPageToken := nextPageToken }

/-- `getRepliesData`: credential check, reply-page fetch, mapping. -/
def getRepliesData (key : Option String) (net : Net) (pageToken : String) :
    Except String RepliesPage :=
  if !strTruthy key then
    Except.error ("SERPAPI_KEY is not set in environment variables")
  else
    match net.replyPage pageToken with
    | Fetched.netFail msg => Except.error msg
    | Fetched.httpError st body =>
      Except.error ("SerpAPI error: " ++ toString st ++ " - " ++ body)
    | Fetched.ok d => Except.ok (mapRepliesData d)

/-- The text payload a tool handler returns to the host: a structured result
(the source serialises it to JSON) or a one-line `Error: ...` string. -/
inductive ToolOut (α : Type) where
  | success (result : α)
  | errorText (msg : String)

/-- The `getReplies` tool handler (lines 496-528): rejects calls with neither
`url` nor `pageToken` before anything else, otherwise delegates to
`getCommentsData` with `url || ""`; any thrown error is rendered as an
`Error: ...` text payload. -/
def getRepliesTool (key : Option String) (net : Net) (url : Option String) (limit : Nat)
    (sort : SortOrder) (pageToken : Option String) : ToolOut CommentsPage :=
  if !strTruthy url && !strTruthy pageToken then
    ToolOut.errorText ("Error: Either url or pageToken must be provided")
  else
    match getCommentsData key net (jsOrStr url ("")) limit sort pageToken with
    | Except.ok page => ToolOut.success page
    | Except.error e => ToolOut.errorText ("Error: " ++ e)

/-- Outcome of walking a pattern against a *finite piece* of a longer text:
the pattern mismatched inside the piece, fully matched inside it (with the
rest of the piece returned), or ran off the end of the piece with part of the
pattern still unmatched. -/
inductive StripRes where
  | mismatch
  | matched (rest : List Char)
  | ranOut (coreLeft : List Char)
deriving DecidableEq

/-- Walk `core` against the piece `s` (see `StripRes`). -/
def strip2 : List Char → List Char → StripRes
  | [], s => StripRes.matched s
  | c :: cs, [] => StripRes.ranOut (c :: cs)
  | c :: cs, a :: as => if c = a then strip2 cs as else StripRes.mismatch

/-- A scan position inside a concrete piece `s` (followed by id characters)
cannot start a successful pattern match: either the pattern mismatches inside
`s`, or it runs out of `s` with a leftover that contains a non-id character
(and hence cannot match the id characters that follow `s`). -/
def badPos (core s : List Char) : Bool :=
  match strip2 core s with
  | StripRes.mismatch => true
  | StripRes.matched _ => false
  | StripRes.ranOut coreLeft => !coreLeft.all isIdChar

/-- Every non-empty suffix of `s` is a `badPos` for `core`. -/
def scanClear (core : List Char) : List Char → Bool
  | [] => true
  | c :: cs => badPos core (c :: cs) && scanClear core cs

/-- Optional URL scheme of a supported video URL. -/
inductive UrlScheme where
  | bare
  | http
  | https

/-- Characters contributed by the scheme. -/
def schemeChars : UrlScheme → List Char
  | UrlScheme.bare => []
  | UrlScheme.http => "http://".toList
  | UrlScheme.https => "https://".toList

/-- Characters contributed by an optional `www.` part. -/
def wwwChars : Bool → List Char
  | true => "www.".toList
  | false => []

/-- The five supported URL shapes. -/
inductive UrlShape where
  | watch
  | embed
  | vpath
  | be
  | shorts

/-- Pattern core of each URL shape. -/
def coreOf : UrlShape → List Char
  | UrlShape.watch => patWatch
  | UrlShape.embed => patEmbed
  | UrlShape.vpath => patV
  | UrlShape.be => patBe
  | UrlShape.shorts => patShorts

/-- A video URL of a given shape: optional scheme, optional `www.`, the
shape's core, then the embedded identifier. -/
def buildUrl (sch : UrlScheme) (w : Bool) (sh : UrlShape) (id : String) : String :=
  String.mk ((schemeChars sch ++ wwwChars w) ++ (coreOf sh ++ id.toList))

/-- A network oracle returning fixed responses. -/
def constNet (vi : Fetched RawVideoInfo) (pg : Fetched RawCommentsPage)
    (rp : Fetched RawRepliesPage) : Net :=
  { videoInfo := fun _ => vi, page := fun _ => pg, replyPage := fun _ => rp }

/-- An upstream comment entry with every optional field absent. -/
def rawCommentAbsent : RawComment :=
  { comment_id := none, channelName := none, content := none,
    published_date := none, extracted_vote_count := none,
    replies_count := none, replies_next_page_token := none }

/-- A comments page carrying 150 upstream entries. -/
def rawPage150 : RawCommentsPage :=
  { video_id := none, title := none, comments_next_page_token := none,
    comments := some (List.replicate 150 rawCommentAbsent) }

/-- A comments page whose `comments` field is absent (or not an array). -/
def rawPageNoComments : RawCommentsPage :=
  { video_id := none, title := none, comments_next_page_token := none, comments := none }

/-- Upstream video info whose only `newest` sorting entry carries an empty
token while a default next-page token is present. -/
def rawInfoEmptyNewest : RawVideoInfo :=
  { title := none, views := none, published_date := none, channelName := none,
    extracted_comment_count := none,
    comments_next_page_token := some ("DEFAULT"),
    comments_sorting_token := some [{ title := "Newest first", token := "" }] }

/-- Upstream video info with no comments tokens at all. -/
def rawInfoNoTokens : RawVideoInfo :=
  { title := none, views := none, published_date := none, channelName := none,
    extracted_comment_count := none, comments_next_page_token := none,
    comments_sorting_token := none }

/-- Upstream video info with the sorting-token list of the spec's example:
`Top comments` with token `A`, `Newest first` with token `B`. -/
def rawInfoSortTokens : RawVideoInfo :=
  { title := none, views := none, published_date := none, channelName := none,
    extracted_comment_count := none,
    comments_next_page_token := some ("DEFAULT"),
    comments_sorting_token :=
      some [{ title := "Top comments", token := "A" },
            { title := "Newest first", token := "B" }] }

/-- A one-entry upstream comments page. -/
def rawCommentHi : RawComment :=
  { comment_id := some ("c1"), channelName := none, content := some ("hi"),
    published_date := none, extracted_vote_count := none,
    replies_count := none, replies_next_page_token := none }

/-- A one-comment upstream page. -/
def rawPageOne : RawCommentsPage :=
  { video_id := some ("vid"), title := some ("T"), comments_next_page_token := none,
    comments := some [rawCommentHi] }

/-- A one-entry upstream reply. -/
def rawReplyHi : RawReply :=
  { comment_id := some ("c1"), channelName := none, content := some ("hi"),
    published_date := none, extracted_vote_count := none }

/-- A one-reply upstream page. -/
def rawRepliesOne : RawRepliesPage :=
  { comment_parent_id := some ("p"), replies_next_page_token := none,
    replies := some [rawReplyHi] }

/-- Oracle used by the concrete witnesses. -/
def netOne : Net :=
  constNet (Fetched.netFail ("unused")) (Fetched.ok rawPageOne) (Fetched.ok rawRepliesOne)

/-! ### Lemmas about the pattern-scanning embedding -/

theorem stripLit_append_self (p l : List Char) : stripLit p (p ++ l) = some l := by
  induction p with
  | nil => rfl
  | cons c cs ih => simp [stripLit, ih]

theorem stripLit_none_of_nonid (p : List Char) :
    ∀ l : List Char, (∃ x ∈ p, isIdChar x = false) → (∀ x ∈ l, isIdChar x = true) →
      stripLit p l = none := by
  induction p with
  | nil => intro l hp _; simp at hp
  | cons a as ih =>
    intro l hp hl
    cases l with
    | nil => rfl
    | cons c cs =>
      by_cases hac : a = c
      · subst hac
        have hc : isIdChar a = true := hl a (by simp)
        have has : ∃ x ∈ as, isIdChar x = false := by
          rcases hp with ⟨x, hx, hfx⟩
          rcases List.mem_cons.mp hx with hxa | hxm
          · subst hxa
            simp [hc] at hfx
          · exact ⟨x, hxm, hfx⟩
        have hcs : ∀ x ∈ cs, isIdChar x = true := fun x hx => hl x (by simp [hx])
        simp [stripLit, ih cs has hcs]
      · simp [stripLit, hac]

theorem captureAfter_none_of_allid (core : List Char) (hc : ∃ x ∈ core, isIdChar x = false) :
    ∀ l : List Char, (∀ x ∈ l, isIdChar x = true) → captureAfter core l = none := by
  intro l
  induction l with
  | nil => intro _; rfl
  | cons c cs ih =>
    intro hl
    have h1 : stripLit core (c :: cs) = none := stripLit_none_of_nonid core (c :: cs) hc hl
    have hcs : ∀ x ∈ cs, isIdChar x = true := fun x hx => hl x (by simp [hx])
    simp [captureAfter, h1, ih hcs]

theorem stripLit_length_le (p : List Char) :
    ∀ l r : List Char, stripLit p l = some r → r.length ≤ l.length := by
  induction p with
  | nil =>
    intro l r h
    simp [stripLit] at h
    subst h
    exact Nat.le_refl _
  | cons a as ih =>
    intro l r h
    cases l with
    | nil => simp [stripLit] at h
    | cons c cs =>
      by_cases hac : a = c
      · simp [stripLit, hac] at h
        have := ih cs r h
        simp [List.length_cons]
        omega
      · simp [stripLit, hac] at h

theorem captureAfter_none_of_short (core : List Char) :
    ∀ l : List Char, l.length < 11 → captureAfter core l = none := by
  intro l
  induction l with
  | nil => intro _; rfl
  | cons c cs ih =>
    intro h
    have hcs : cs.length < 11 := by
      simp [List.length_cons] at h
      omega
    cases hs : stripLit core (c :: cs) with
    | none => simp [captureAfter, hs, ih hcs]
    | some rest =>
      have hr : rest.length ≤ cs.length + 1 := by
        have := stripLit_length_le core (c :: cs) rest hs
        simpa using this
      have hcs1 : cs.length + 1 < 11 := by simpa using h
      have hlen : ¬ ((rest.take 11).length = 11 ∧ (rest.take 11).all isIdChar = true) := by
        intro hcontra
        have h1 := hcontra.1
        rw [List.length_take] at h1
        omega
      simp only [captureAfter, hs]
      rw [if_neg hlen]
      exact ih hcs

theorem stripLit_append (core : List Char) :
    ∀ s l : List Char,
      stripLit core (s ++ l) =
        match strip2 core s with
        | StripRes.mismatch => none
        | StripRes.matched r => some (r ++ l)
        | StripRes.ranOut coreLeft => stripLit coreLeft l := by
  induction core with
  | nil => intro s l; simp [stripLit, strip2]
  | cons c cs ih =>
    intro s l
    cases s with
    | nil => simp [strip2]
    | cons a as =>
      by_cases hca : c = a
      · subst hca
        simp [stripLit, strip2, ih as l]
      · simp [stripLit, strip2, hca]

theorem captureAfter_append_none (core : List Char) (id : List Char)
    (hcore : ∃ x ∈ core, isIdChar x = false) (hid : ∀ x ∈ id, isIdChar x = true) :
    ∀ C : List Char, scanClear core C = true → captureAfter core (C ++ id) = none := by
  intro C
  induction C with
  | nil =>
    intro _
    simpa using captureAfter_none_of_allid core hcore id hid
  | cons c cs ih =>
    intro hC
    have hsplit : badPos core (c :: cs) = true ∧ scanClear core cs = true := by
      simpa [scanClear, Bool.and_eq_true] using hC
    have hstep : stripLit core ((c :: cs) ++ id) = none := by
      have hb := hsplit.1
      rw [stripLit_append core (c :: cs) id]
      unfold badPos at hb
      cases hs : strip2 core (c :: cs) with
      | mismatch => simp [hs]
      | matched r =>
        rw [hs] at hb
        simp at hb
      | ranOut coreLeft =>
        rw [hs] at hb
        simp at hb
        simp [hs]
        exact stripLit_none_of_nonid coreLeft id hb hid
    have h2 : stripLit core (c :: (cs ++ id)) = none := by
      simpa using hstep
    calc captureAfter core ((c :: cs) ++ id)
        = captureAfter core (c :: (cs ++ id)) := by rw [List.cons_append]
      _ = captureAfter core (cs ++ id) := by simp [captureAfter, h2]
      _ = none := ih hsplit.2

theorem captureAfter_skip (core : List Char) (y : Char) (hcore : core.head? = some y) :
    ∀ P l : List Char, (∀ c ∈ P, ¬ c = y) → captureAfter core (P ++ l) = captureAfter core l := by
  intro P
  induction P with
  | nil => intro l _; simp
  | cons a as ih =>
    intro l hP
    have ha : ¬ a = y := hP a (by simp)
    cases core with
    | nil => simp at hcore
    | cons c cs =>
      have hcy : c = y := by simpa using hcore
      have hac : ¬ c = a := fun h => ha (h.symm.trans hcy)
      have h1 : stripLit (c :: cs) (a :: (as ++ l)) = none := by
        simp only [stripLit]
        rw [if_neg hac]
      calc captureAfter (c :: cs) ((a :: as) ++ l)
          = captureAfter (c :: cs) (a :: (as ++ l)) := by rw [List.cons_append]
        _ = captureAfter (c :: cs) (as ++ l) := by simp [captureAfter, h1]
        _ = captureAfter (c :: cs) l := ih l (fun x hx => hP x (by simp [hx]))

theorem captureAfter_self (core id : List Char) (hne : core ≠ [])
    (hlen : id.length = 11) (hid : ∀ x ∈ id, isIdChar x = true) :
    captureAfter core (core ++ id) = some id := by
  cases core with
  | nil => exact absurd rfl hne
  | cons c cs =>
    have h1 : stripLit (c :: cs) (c :: (cs ++ id)) = some id := by
      have := stripLit_append_self (c :: cs) id
      simpa using this
    have htake : id.take 11 = id := by
      rw [← hlen]
      exact List.take_length id
    have hguard : (id.take 11).length = 11 ∧ (id.take 11).all isIdChar = true := by
      constructor
      · rw [htake, hlen]
      · rw [htake]
        simpa using hid
    calc captureAfter (c :: cs) ((c :: cs) ++ id)
        = captureAfter (c :: cs) (c :: (cs ++ id)) := by rw [List.cons_append]
      _ = some id := by
          simp only [captureAfter, h1]
          rw [if_pos hguard, htake]

theorem isVideoIdChars_false_of_len (l : List Char) (h : ¬ l.length = 11) :
    isVideoIdChars l = false := by
  unfold isVideoIdChars
  have hb : (l.length == 11) = false := by
    cases hn : (l.length == 11) with
    | false => rfl
    | true => exact absurd (by simpa using hn) h
  simp [hb]

theorem firstCapture_first :
    ∀ (ps : List (List Char)) (l : List Char) (i : Nat) (hi : i < ps.length) (v : List Char),
      (∀ j (hj : j < i), captureAfter (ps.get ⟨j, Nat.lt_trans hj hi⟩) l = none) →
      captureAfter (ps.get ⟨i, hi⟩) l = some v →
      firstCapture ps l = some v := by
  intro ps
  induction ps with
  | nil =>
    intro l i hi
    exact absurd hi (by simp)
  | cons p ps ih =>
    intro l i hi v hnone hsome
    cases i with
    | zero =>
      have h0 : captureAfter p l = some v := by simpa using hsome
      simp [firstCapture, h0]
    | succ n =>
      have h0 : captureAfter p l = none := by
        have := hnone 0 (Nat.succ_pos n)
        simpa using this
      have hrec := ih l n (Nat.lt_of_succ_lt_succ hi) v
        (fun j hj => by
          have := hnone (j + 1) (Nat.succ_lt_succ hj)
          simpa using this)
        (by simpa using hsome)
      simp [firstCapture, h0, hrec]

theorem prefix_no_y (sch : UrlScheme) (w : Bool) :
    ∀ c ∈ schemeChars sch ++ wwwChars w, ¬ c = 'y' := by
  cases sch <;> cases w <;> decide

theorem getVideoIdL_at_core (P core idl : List Char)
    (hy : core.head? = some 'y') (hP : ∀ c ∈ P, ¬ c = 'y')
    (hne : core ≠ []) (h1 : idl.length = 11) (h2 : ∀ x ∈ idl, isIdChar x = true) :
    captureAfter core (P ++ (core ++ idl)) = some idl := by
  rw [captureAfter_skip core 'y' hy P (core ++ idl) hP]
  exact captureAfter_self core idl hne h1 h2

theorem getVideoIdL_no_core (P corej corek idl : List Char)
    (hy : corej.head? = some 'y') (hP : ∀ c ∈ P, ¬ c = 'y')
    (hcore : ∃ x ∈ corej, isIdChar x = false) (hid : ∀ x ∈ idl, isIdChar x = true)
    (hscan : scanClear corej corek = true) :
    captureAfter corej (P ++ (corek ++ idl)) = none := by
  rw [captureAfter_skip corej 'y' hy P (corek ++ idl) hP]
  exact captureAfter_append_none corej idl hcore hid corek hscan

theorem getVideoIdL_buildUrl (sch : UrlScheme) (w : Bool) (sh : UrlShape) (idl : List Char)
    (h1 : idl.length = 11) (h2 : ∀ x ∈ idl, isIdChar x = true) :
    getVideoIdL ((schemeChars sch ++ wwwChars w) ++ (coreOf sh ++ idl)) = some idl := by
  have hP := prefix_no_y sch w
  have hlen9 : 9 ≤ (coreOf sh).length := by cases sh <;> decide
  have hne11 : ¬ ((schemeChars sch ++ wwwChars w) ++ (coreOf sh ++ idl)).length = 11 := by
    simp [List.length_append, h1]
    omega
  unfold getVideoIdL
  rw [isVideoIdChars_false_of_len _ hne11, if_neg Bool.false_ne_true]
  cases sh with
  | watch =>
    simp only [coreOf]
    have hw := getVideoIdL_at_core (schemeChars sch ++ wwwChars w) patWatch idl
      (by decide) hP (by decide) h1 h2
    simp only [List.append_assoc] at hw
    simp [urlPatterns, firstCapture, hw]
  | embed =>
    simp only [coreOf]
    have hn1 := getVideoIdL_no_core (schemeChars sch ++ wwwChars w) patWatch patEmbed idl
      (by decide) hP (by decide) h2 (by decide)
    have hw := getVideoIdL_at_core (schemeChars sch ++ wwwChars w) patEmbed idl
      (by decide) hP (by decide) h1 h2
    simp only [List.append_assoc] at hn1 hw
    simp [urlPatterns, firstCapture, hn1, hw]
  | vpath =>
    simp only [coreOf]
    have hn1 := getVideoIdL_no_core (schemeChars sch ++ wwwChars w) patWatch patV idl
      (by decide) hP (by decide) h2 (by decide)
    have hn2 := getVideoIdL_no_core (schemeChars sch ++ wwwChars w) patEmbed patV idl
      (by decide) hP (by decide) h2 (by decide)
    have hw := getVideoIdL_at_core (schemeChars sch ++ wwwChars w) patV idl
      (by decide) hP (by decide) h1 h2
    simp only [List.append_assoc] at hn1 hn2 hw
    simp [urlPatterns, firstCapture, hn1, hn2, hw]
  | be =>
    simp only [coreOf]
    have hn1 := getVideoIdL_no_core (schemeChars sch ++ wwwChars w) patWatch patBe idl
      (by decide) hP (by decide) h2 (by decide)
    have hn2 := getVideoIdL_no_core (schemeChars sch ++ wwwChars w) patEmbed patBe idl
      (by decide) hP (by decide) h2 (by decide)
    have hn3 := getVideoIdL_no_core (schemeChars sch ++ wwwChars w) patV patBe idl
      (by decide) hP (by decide) h2 (by decide)
    have hw := getVideoIdL_at_core (schemeChars sch ++ wwwChars w) patBe idl
      (by decide) hP (by decide) h1 h2
    simp only [List.append_assoc] at hn1 hn2 hn3 hw
    simp [urlPatterns, firstCapture, hn1, hn2, hn3, hw]
  | shorts =>
    simp only [coreOf]
    have hn1 := getVideoIdL_no_core (schemeChars sch ++ wwwChars w) patWatch patShorts idl
      (by decide) hP (by decide) h2 (by decide)
    have hn2 := getVideoIdL_no_core (schemeChars sch ++ wwwChars w) patEmbed patShorts idl
      (by decide) hP (by decide) h2 (by decide)
    have hn3 := getVideoIdL_no_core (schemeChars sch ++ wwwChars w) patV patShorts idl
      (by decide) hP (by decide) h2 (by decide)
    have hn4 := getVideoIdL_no_core (schemeChars sch ++ wwwChars w) patBe patShorts idl
      (by decide) hP (by decide) h2 (by decide)
    have hw := getVideoIdL_at_core (schemeChars sch ++ wwwChars w) patShorts idl
      (by decide) hP (by decide) h1 h2
    simp only [List.append_assoc] at hn1 hn2 hn3 hn4 hw
    simp [urlPatterns, firstCapture, hn1, hn2, hn3, hn4, hw]

/-! ### Claim theorems for the Identifier Resolver -/

/-- Claim C7: for every string of exactly eleven characters drawn from
letters, digits, hyphen and underscore, `getVideoId` returns the string
itself. -/
theorem resolver_identity_on_ids :
    ∀ s : String, s.toList.length = 11 → (∀ c ∈ s.toList, isIdChar c = true) →
      getVideoId s = some s := by
  intro s h1 h2
  have htrue : isVideoIdChars s.toList = true := by
    unfold isVideoIdChars
    rw [h1]
    simpa using h2
  unfold getVideoId getVideoIdL
  rw [htrue, if_pos rfl]
  rfl

/-- Witness for C7 at a concrete identifier. -/
theorem resolver_identity_on_ids_witness :
    getVideoId ("dQw4w9WgXcQ") = some ("dQw4w9WgXcQ") :=
  resolver_identity_on_ids ("dQw4w9WgXcQ") (by decide) (by decide)

/-- Claim C8: every URL in one of the five supported shapes (with any of the
optional schemes and optional `www.`) resolves to its embedded 11-character
identifier; the five patterns are tried in the fixed source order and the
first successful capture wins; a string that is not an 11-character id and
matches no pattern — in particular any string shorter than eleven
characters — resolves to `none` (the `NotFound` result). -/
theorem resolver_url_shapes :
    (∀ (sch : UrlScheme) (w : Bool) (sh : UrlShape) (id : String),
       id.toList.length = 11 → (∀ c ∈ id.toList, isIdChar c = true) →
       getVideoId (buildUrl sch w sh id) = some id)
    ∧ (∀ (s : String) (i : Nat) (hi : i < urlPatterns.length) (v : List Char),
       isVideoIdChars s.toList = false →
       (∀ j (hj : j < i), captureAfter (urlPatterns.get ⟨j, Nat.lt_trans hj hi⟩) s.toList = none) →
       captureAfter (urlPatterns.get ⟨i, hi⟩) s.toList = some v →
       getVideoId s = some (String.mk v))
    ∧ (∀ s : String, s.toList.length < 11 → getVideoId s = none)
    ∧ (∀ s : String, isVideoIdChars s.toList = false →
       captureAfter patWatch s.toList = none →
       captureAfter patEmbed s.toList = none →
       captureAfter patV s.toList = none →
       captureAfter patBe s.toList = none →
       captureAfter patShorts s.toList = none →
       getVideoId s = none) := by
  refine ⟨?_, ?_, ?_, ?_⟩
  · intro sch w sh id h1 h2
    have hmain := getVideoIdL_buildUrl sch w sh id.toList h1 h2
    unfold getVideoId buildUrl
    rw [show (String.mk ((schemeChars sch ++ wwwChars w) ++ (coreOf sh ++ id.toList))).toList
        = (schemeChars sch ++ wwwChars w) ++ (coreOf sh ++ id.toList) from rfl]
    rw [hmain]
    rfl
  · intro s i hi v hfalse hnone hsome
    unfold getVideoId getVideoIdL
    rw [hfalse, if_neg Bool.false_ne_true]
    rw [firstCapture_first urlPatterns s.toList i hi v hnone hsome]
    rfl
  · intro s h
    have hfalse : isVideoIdChars s.toList = false := isVideoIdChars_false_of_len _ (by omega)
    have hc1 := captureAfter_none_of_short patWatch s.toList h
    have hc2 := captureAfter_none_of_short patEmbed s.toList h
    have hc3 := captureAfter_none_of_short patV s.toList h
    have hc4 := captureAfter_none_of_short patBe s.toList h
    have hc5 := captureAfter_none_of_short patShorts s.toList h
    simp only [String.toList] at hc1 hc2 hc3 hc4 hc5
    unfold getVideoId getVideoIdL
    rw [hfalse, if_neg Bool.false_ne_true]
    simp [urlPatterns, firstCapture, hc1, hc2, hc3, hc4, hc5]
  · intro s hfalse hc1 hc2 hc3 hc4 hc5
    simp only [String.toList] at hc1 hc2 hc3 hc4 hc5
    unfold getVideoId getVideoIdL
    rw [hfalse, if_neg Bool.false_ne_true]
    simp [urlPatterns, firstCapture, hc1, hc2, hc3, hc4, hc5]

/-- Witness for C8 at a concrete URL of the `watch?v=` shape. -/
theorem resolver_url_shapes_witness :
    getVideoId (buildUrl UrlScheme.https true UrlShape.watch ("dQw4w9WgXcQ"))
      = some ("dQw4w9WgXcQ") :=
  resolver_url_shapes.1 UrlScheme.https true UrlShape.watch ("dQw4w9WgXcQ")
    (by decide) (by decide)

/-! ### Claim theorems for the Page Metadata Extractor -/

/-- Claim C1 (counterexample): at HTTP status 500 the caller of
`fetchBasicVideoInfo` receives a *normal* all-absent result, not an
`UpstreamUnavailable` error — the internal `HTTP error! status: 500`
exception is swallowed by the function's own `catch` block. -/
theorem fetchBasicVideoInfo_http_error_cex :
    fetchBasicVideoInfo (some { status := 500, body := "x" })
      = { title := none, channelName := none, publishedAt := none, viewCount := none }
    ∧ fetchBasicVideoInfoTry (some { status := 500, body := "x" })
      = Except.error ("HTTP error! status: 500") :=
  ⟨rfl, rfl⟩

/-- Claim C1 (amended): `fetchBasicVideoInfo` never fails at all — on a
success status it extracts each field independently and missing fields simply
stay absent, and on a non-success HTTP status or transport failure the
internally raised error (which carries the status code) is caught and an
all-absent normal result is returned to the caller. -/
theorem fetchBasicVideoInfo_total_best_effort :
    fetchBasicVideoInfo none
        = { title := none, channelName := none, publishedAt := none, viewCount := none }
    ∧ (∀ r : Resp, respOk r.status = false →
        fetchBasicVideoInfoTry (some r)
            = Except.error ("HTTP error! status: " ++ toString r.status)
        ∧ fetchBasicVideoInfo (some r)
            = { title := none, channelName := none, publishedAt := none, viewCount := none })
    ∧ (∀ r : Resp, respOk r.status = true →
        fetchBasicVideoInfoTry (some r) = Except.ok
          { title := (searchMeta ("name=\"title\"".toList) r.body.toList).map String.mk
          , channelName := (searchMeta ("name=\"author\"".toList) r.body.toList).map String.mk
          , publishedAt := (captureQuoted ("\"publishDate\":\"".toList) r.body.toList).map String.mk
          , viewCount := (captureQuoted ("\"viewCount\":\"".toList) r.body.toList).map String.mk }) := by
  refine ⟨rfl, ?_, ?_⟩
  · intro r hr
    have h1 : fetchBasicVideoInfoTry (some r)
        = Except.error ("HTTP error! status: " ++ toString r.status) := by
      simp [fetchBasicVideoInfoTry, hr]
    refine ⟨h1, ?_⟩
    unfold fetchBasicVideoInfo
    rw [h1]
  · intro r hr
    simp [fetchBasicVideoInfoTry, hr]

/-- Witness for the amended C1 theorem at concrete responses. -/
theorem fetchBasicVideoInfo_total_best_effort_witness :
    respOk 404 = false
    ∧ fetchBasicVideoInfo (some { status := 404, body := "gone" })
        = { title := none, channelName := none, publishedAt := none, viewCount := none }
    ∧ respOk 200 = true
    ∧ fetchBasicVideoInfoTry (some { status := 200, body := "no patterns here" })
        = Except.ok { title := none, channelName := none, publishedAt := none, viewCount := none } := by
  refine ⟨by decide,
    (fetchBasicVideoInfo_total_best_effort.2.1 { status := 404, body := "gone" } (by decide)).2,
    by decide, ?_⟩
  have h := fetchBasicVideoInfo_total_best_effort.2.2 { status := 200, body := "no patterns here" }
    (by decide)
  rw [h]
  rfl

/-! ### Claim theorems for the comments pipeline -/

theorem find?_first {α : Type} (p : α → Bool) (l₁ l₂ : List α) (e : α)
    (h₁ : ∀ x ∈ l₁, p x = false) (he : p e = true) :
    List.find? p (l₁ ++ e :: l₂) = some e := by
  induction l₁ with
  | nil =>
    simpa using List.find?_cons_of_pos l₂ he
  | cons a as ih =>
    have ha : p a = false := h₁ a (by simp)
    rw [List.cons_append, List.find?_cons_of_neg _ (by simp [ha])]
    exact ih (fun x hx => h₁ x (by simp [hx]))

theorem getCommentsData_url_path (key : Option String) (net : Net) (url videoId : String)
    (limit : Nat) (sort : SortOrder) (raw : RawVideoInfo)
    (hk : strTruthy key = true) (hurl : getVideoId url = some videoId)
    (hnet : net.videoInfo videoId = Fetched.ok raw) :
    getCommentsData key net url limit sort none
      = match selectCommentsToken sort (mapVideoInfo videoId raw) with
        | some t =>
          if t = "" then Except.error ("Could not find valid comments token")
          else fetchPage net t videoId limit
        | none => Except.error ("Could not find valid comments token") := by
  have hinfo : getVideoInfoData key net url = Except.ok (mapVideoInfo videoId raw) := by
    unfold getVideoInfoData
    rw [hurl, hk]
    simp [hnet]
  have h0 : strTruthy none = false := rfl
  unfold getCommentsData
  simp [hk, h0, hurl, hinfo, mapVideoInfo]

/-- Claim C2 (counterexample): with sorting tokens `[{Newest first, ""}]` and
a present default token, a time-sorted url-driven `getReplies` does not use
the newest entry's token (nor the default): the JS-falsy `if (!tokenToUse)`
check fires on the empty token and the call errors, even though the page
oracle stood ready to answer a page fetch. -/
theorem sort_token_empty_newest_cex :
    getCommentsData (some ("K"))
        (constNet (Fetched.ok rawInfoEmptyNewest) (Fetched.ok rawPageNoComments)
          (Fetched.netFail ("unused")))
        ("dQw4w9WgXcQ") 100 SortOrder.time none
      = Except.error ("Could not find valid comments token")
    ∧ (constNet (Fetched.ok rawInfoEmptyNewest) (Fetched.ok rawPageNoComments)
          (Fetched.netFail ("unused"))).page ("")
      = Fetched.ok rawPageNoComments :=
  ⟨rfl, rfl⟩

/-- Claim C2 (amended): for a url-driven `getReplies`, under time ordering
with a sorting-token list present the selected page-fetch token is the token
of the first entry whose title case-insensitively contains `newest`; when no
such entry exists, or the list is absent, the default `commentsNextPageToken`
is selected without this fallback being an error; under relevance ordering
the default is always selected.  The page fetch is then issued with the
selected token provided it is present and non-empty (otherwise the call fails
with `Could not find valid comments token`, see the C10 theorem). -/
theorem getReplies_sort_token_selection :
    (∀ (info : VideoInfoResponse) (l₁ l₂ : List RawSortingToken) (e : RawSortingToken),
       info.commentsSortingTokens = some (l₁ ++ e :: l₂) →
       (∀ x ∈ l₁, titleHasNewest x.title = false) →
       titleHasNewest e.title = true →
       selectCommentsToken SortOrder.time info = some e.token)
    ∧ (∀ (info : VideoInfoResponse) (toks : List RawSortingToken),
       info.commentsSortingTokens = some toks →
       (∀ x ∈ toks, titleHasNewest x.title = false) →
       selectCommentsToken SortOrder.time info = info.commentsNextPageToken)
    ∧ (∀ info : VideoInfoResponse, info.commentsSortingTokens = none →
       selectCommentsToken SortOrder.time info = info.commentsNextPageToken)
    ∧ (∀ info : VideoInfoResponse,
       selectCommentsToken SortOrder.relevance info = info.commentsNextPageToken)
    ∧ (∀ (key : Option String) (net : Net) (url videoId tok : String) (limit : Nat)
         (sort : SortOrder) (raw : RawVideoInfo),
       strTruthy key = true →
       getVideoId url = some videoId →
       net.videoInfo videoId = Fetched.ok raw →
       selectCommentsToken sort (mapVideoInfo videoId raw) = some tok →
       ¬ tok = "" →
       getCommentsData key net url limit sort none = fetchPage net tok videoId limit) := by
  refine ⟨?_, ?_, ?_, ?_, ?_⟩
  · intro info l₁ l₂ e h h₁ he
    have hf := find?_first (fun t => titleHasNewest t.title) l₁ l₂ e h₁ he
    simp [selectCommentsToken, h, hf]
  · intro info toks h hall
    have hfind : toks.find? (fun t => titleHasNewest t.title) = none := by
      rw [List.find?_eq_none]
      intro x hx
      simp [hall x hx]
    simp [selectCommentsToken, h, hfind]
  · intro info h
    simp [selectCommentsToken, h]
  · intro info
    unfold selectCommentsToken
    cases info.commentsSortingTokens <;> rfl
  · intro key net url videoId tok limit sort raw hk hurl hnet hsel htok
    rw [getCommentsData_url_path key net url videoId limit sort raw hk hurl hnet, hsel]
    simp [htok]

/-- Witness for the amended C2 theorem at the spec's example sorting-token
list. -/
theorem getReplies_sort_token_selection_witness :
    selectCommentsToken SortOrder.time (mapVideoInfo ("vid") rawInfoSortTokens) = some ("B")
    ∧ selectCommentsToken SortOrder.relevance (mapVideoInfo ("vid") rawInfoSortTokens)
        = some ("DEFAULT") :=
  ⟨getReplies_sort_token_selection.1 (mapVideoInfo ("vid") rawInfoSortTokens)
      [{ title := "Top comments", token := "A" }] []
      { title := "Newest first", token := "B" } rfl (by decide) (by decide),
   getReplies_sort_token_selection.2.2.2.1 (mapVideoInfo ("vid") rawInfoSortTokens)⟩

/-- Claim C10: when the fetched video info carries no default next-page token
and no usable `newest` sorting token, a url-driven `getReplies` fails with
`Could not find valid comments token`, whatever the page oracle would answer
— the error is decided before the comments-page request is issued. -/
theorem missing_token_error :
    ∀ (key : Option String) (net : Net) (url videoId : String) (limit : Nat)
      (sort : SortOrder) (raw : RawVideoInfo),
      strTruthy key = true →
      getVideoId url = some videoId →
      net.videoInfo videoId = Fetched.ok raw →
      raw.comments_next_page_token = none →
      (∀ toks, raw.comments_sorting_token = some toks →
        ∀ e ∈ toks, titleHasNewest e.title = true → e.token = "") →
      getCommentsData key net url limit sort none
        = Except.error ("Could not find valid comments token") := by
  intro key net url videoId limit sort raw hk hurl hnet hdef htoks
  have hsel : ∀ t, selectCommentsToken sort (mapVideoInfo videoId raw) = some t → t = "" := by
    intro t ht
    unfold selectCommentsToken at ht
    simp only [mapVideoInfo] at ht
    cases sort with
    | relevance =>
      cases hx : raw.comments_sorting_token with
      | none => simp [hx, hdef] at ht
      | some toks => simp [hx, hdef] at ht
    | time =>
      cases hx : raw.comments_sorting_token with
      | none => simp [hx, hdef] at ht
      | some toks =>
        simp only [hx] at ht
        cases hfind : toks.find? (fun t => titleHasNewest t.title) with
        | none => simp [hfind, hdef] at ht
        | some e =>
          simp [hfind] at ht
          have hmem := List.mem_of_find?_eq_some hfind
          have hp : titleHasNewest e.title = true := by
            have := List.find?_some hfind
            simpa using this
          rw [← ht]
          exact htoks toks hx e hmem hp
  rw [getCommentsData_url_path key net url videoId limit sort raw hk hurl hnet]
  cases hs : selectCommentsToken sort (mapVideoInfo videoId raw) with
  | none => rfl
  | some t =>
    have ht : t = "" := hsel t hs
    simp [ht]

/-- Witness for C10: video info with no tokens at all. -/
theorem missing_token_error_witness :
    getCommentsData (some ("K"))
        (constNet (Fetched.ok rawInfoNoTokens) (Fetched.ok rawPageNoComments)
          (Fetched.netFail ("unused")))
        ("dQw4w9WgXcQ") 100 SortOrder.time none
      = Except.error ("Could not find valid comments token") :=
  missing_token_error (some ("K"))
    (constNet (Fetched.ok rawInfoNoTokens) (Fetched.ok rawPageNoComments)
      (Fetched.netFail ("unused")))
    ("dQw4w9WgXcQ") ("dQw4w9WgXcQ") 100 SortOrder.time rawInfoNoTokens
    (by decide) (by decide) rfl rfl
    (by intro toks h e hm hp; simp [rawInfoNoTokens] at h)

/-- Claim C3: given an upstream page whose `comments` field holds `n`
entries, the comments-page mapping returns exactly `min n limit` entries —
the first `min n limit` upstream entries, mapped in upstream order. -/
theorem comments_page_truncates :
    ∀ (d : RawCommentsPage) (cs : List RawComment) (evid : String) (limit : Nat),
      d.comments = some cs →
      (mapCommentsData d evid limit).comments = (cs.take limit).map mapComment
      ∧ (mapCommentsData d evid limit).comments.length = min cs.length limit := by
  intro d cs evid limit h
  unfold mapCommentsData
  rw [h]
  constructor
  · rfl
  · simp [List.length_take]
    omega

/-- Witness for C3: 150 upstream entries and limit 100 give exactly the first
100 entries. -/
theorem comments_page_truncates_witness :
    (mapCommentsData rawPage150 ("") 100).comments
        = ((List.replicate 150 rawCommentAbsent).take 100).map mapComment
    ∧ (mapCommentsData rawPage150 ("") 100).comments.length
        = min (List.replicate 150 rawCommentAbsent).length 100 :=
  comments_page_truncates rawPage150 (List.replicate 150 rawCommentAbsent) ("") 100 rfl

/-- Claim C4: per-entry defaults of the comments-page mapping — absent
`channel.name` gives author `Anonymous`, absent `content` gives empty text,
absent `extracted_vote_count` gives 0 likes, and an absent
`replies_next_page_token` gives an explicit null `repliesToken` (the mapping
always writes the field via `|| null`, so it is never left undefined). -/
theorem comment_mapping_defaults :
    ∀ c : RawComment,
      (c.channelName = none → (mapComment c).author = "Anonymous")
      ∧ (c.content = none → (mapComment c).text = "")
      ∧ (c.extracted_vote_count = none → (mapComment c).likes = 0)
      ∧ (c.replies_next_page_token = none → (mapComment c).repliesToken = none) := by
  intro c
  refine ⟨?_, ?_, ?_, ?_⟩ <;> intro h <;> simp [mapComment, h, jsOrStr, jsOrNat, jsStrOpt]

/-- Witness for C4 at the all-absent upstream entry. -/
theorem comment_mapping_defaults_witness :
    (mapComment rawCommentAbsent).author = "Anonymous"
    ∧ (mapComment rawCommentAbsent).text = ""
    ∧ (mapComment rawCommentAbsent).likes = 0
    ∧ (mapComment rawCommentAbsent).repliesToken = none :=
  ⟨(comment_mapping_defaults rawCommentAbsent).1 rfl,
   (comment_mapping_defaults rawCommentAbsent).2.1 rfl,
   (comment_mapping_defaults rawCommentAbsent).2.2.1 rfl,
   (comment_mapping_defaults rawCommentAbsent).2.2.2 rfl⟩

/-- Claim C5: a `getReplies` call with neither `url` nor `pageToken` fails
with the invalid-arguments error for every network oracle and credential —
so the failure cannot depend on any network request. -/
theorem getReplies_requires_url_or_pageToken :
    ∀ (key : Option String) (net : Net) (limit : Nat) (sort : SortOrder),
      getRepliesTool key net none limit sort none
        = ToolOut.errorText ("Error: Either url or pageToken must be provided") := by
  intro key net limit sort
  rfl

/-- Claim C6: a successful page fetch whose `comments` field is absent (or
not an array) succeeds with an empty page — `comments = []` and
`commentCount = 0` — rather than erroring. -/
theorem comments_page_absent_comments_empty :
    ∀ (net : Net) (token evid : String) (limit : Nat) (d : RawCommentsPage),
      net.page token = Fetched.ok d →
      d.comments = none →
      fetchPage net token evid limit
        = Except.ok
            { videoId := jsOrStr d.video_id evid, videoTitle := d.title,
              comments := [], commentCount := 0,
              nextPageToken := jsStrOpt d.comments_next_page_token } := by
  intro net token evid limit d hnet hc
  simp [fetchPage, hnet, mapCommentsData, hc]

/-- Witness for C6 at the concrete no-comments page. -/
theorem comments_page_absent_comments_empty_witness :
    fetchPage (constNet (Fetched.netFail ("unused")) (Fetched.ok rawPageNoComments)
        (Fetched.netFail ("unused"))) ("TOK") ("vid") 100
      = Except.ok
          { videoId := jsOrStr rawPageNoComments.video_id ("vid"),
            videoTitle := rawPageNoComments.title,
            comments := [], commentCount := 0,
            nextPageToken := jsStrOpt rawPageNoComments.comments_next_page_token } :=
  comments_page_absent_comments_empty
    (constNet (Fetched.netFail ("unused")) (Fetched.ok rawPageNoComments)
      (Fetched.netFail ("unused")))
    ("TOK") ("vid") 100 rawPageNoComments rfl rfl

theorem mapCommentsData_count (d : RawCommentsPage) (evid : String) (limit : Nat) :
    (mapCommentsData d evid limit).commentCount
      = (mapCommentsData d evid limit).comments.length := by
  unfold mapCommentsData
  cases d.comments <;> simp

theorem mapRepliesData_count (d : RawRepliesPage) :
    (mapRepliesData d).replyCount = (mapRepliesData d).replies.length := by
  unfold mapRepliesData
  cases d.replies <;> simp

theorem fetchPage_count (net : Net) (token evid : String) (limit : Nat) (page : CommentsPage)
    (h : fetchPage net token evid limit = Except.ok page) :
    page.commentCount = page.comments.length := by
  unfold fetchPage at h
  cases hnet : net.page token with
  | ok d =>
    rw [hnet] at h
    simp at h
    rw [← h]
    exact mapCommentsData_count d evid limit
  | httpError st body =>
    rw [hnet] at h
    simp at h
  | netFail msg =>
    rw [hnet] at h
    simp at h

/-- Claim C9: every successful comments page reports `commentCount` equal
to the length of the comment sequence actually returned, and every
successful replies page reports `replyCount` equal to the length of the
reply sequence actually returned (the post-truncation counts). -/
theorem page_count_matches_length :
    (∀ (key : Option String) (net : Net) (url : String) (limit : Nat) (sort : SortOrder)
       (pageToken : Option String) (page : CommentsPage),
       getCommentsData key net url limit sort pageToken = Except.ok page →
       page.commentCount = page.comments.length)
    ∧ (∀ (key : Option String) (net : Net) (pageToken : String) (rp : RepliesPage),
       getRepliesData key net pageToken = Except.ok rp →
       rp.replyCount = rp.replies.length) := by
  constructor
  · intro key net url limit sort pageToken page h
    unfold getCommentsData at h
    split at h
    · simp at h
    · split at h
      · exact fetchPage_count _ _ _ _ _ h
      · split at h
        · simp at h
        · split at h
          · simp at h
          · split at h
            · split at h
              · simp at h
              · exact fetchPage_count _ _ _ _ _ h
            · simp at h
  · intro key net pageToken rp h
    unfold getRepliesData at h
    split at h
    · simp at h
    · cases hnet : net.replyPage pageToken with
      | ok d =>
        rw [hnet] at h
        simp at h
        rw [← h]
        exact mapRepliesData_count d
      | httpError st body =>
        rw [hnet] at h
        simp at h
      | netFail msg =>
        rw [hnet] at h
        simp at h

/-- Witness for C9 at a concrete one-comment page and one-reply page. -/
theorem page_count_matches_length_witness :
    (mapCommentsData rawPageOne ("") 100).commentCount
        = (mapCommentsData rawPageOne ("") 100).comments.length
    ∧ (mapRepliesData rawRepliesOne).replyCount = (mapRepliesData rawRepliesOne).replies.length :=
  ⟨page_count_matches_length.1 (some ("K")) netOne ("") 100 SortOrder.relevance (some ("TOK"))
      (mapCommentsData rawPageOne ("") 100) rfl,
   page_count_matches_length.2 (some ("K")) netOne ("TOK") (mapRepliesData rawRepliesOne) rfl⟩

end SerpYt
